import Mathlib

/-!
Verification development for the StayHub backend authentication subsystem.

The definitions below are a shallow embedding of the authentication code:
the validation helpers (src/validations/validation.js), the JSON Web Token
library as used by the services (sign / verify / decode), the bcrypt hashing
calls (modelled as a deterministic injective digest), the token-blacklist
store (src/models/token-blacklist.model.ts), the AuthService operations
(src/services/auth.service.ts and auth.service.js), the authentication
middleware (src/middlewares/auth.middleware.*), and the auth controller
(src/controllers/auth.controller.ts).  External I/O (Mongoose, SMTP) is
made explicit: the user collection and the blacklist collection are passed
as lists, time is an explicit natural-number parameter, and the outcome of
an email dispatch is passed in as a value.
-/

deriving instance DecidableEq for Except

namespace StayHub

/-! ## Regular expressions (Brzozowski derivatives)

The validation helpers in src/validations/validation.js are anchored
JavaScript regexes.  We embed them with a small derivative-based matcher;
character classes are predicates on characters. -/

inductive Regex where
  | emp : Regex
  | eps : Regex
  | cls : (Char → Bool) → Regex
  | cat : Regex → Regex → Regex
  | alt : Regex → Regex → Regex
  | star : Regex → Regex

def Regex.nullable : Regex → Bool
  | .emp => false
  | .eps => true
  | .cls _ => false
  | .cat a b => a.nullable && b.nullable
  | .alt a b => a.nullable || b.nullable
  | .star _ => true

def Regex.isEmp : Regex → Bool
  | .emp => true
  | _ => false

def Regex.isEps : Regex → Bool
  | .eps => true
  | _ => false

/-- Smart concatenation: prunes the empty language and unit. -/
def Regex.catS (a b : Regex) : Regex :=
  if a.isEmp || b.isEmp then .emp
  else if a.isEps then b
  else if b.isEps then a
  else .cat a b

/-- Smart alternation: prunes the empty language. -/
def Regex.altS (a b : Regex) : Regex :=
  if a.isEmp then b
  else if b.isEmp then a
  else .alt a b

def Regex.deriv (c : Char) : Regex → Regex
  | .emp => .emp
  | .eps => .emp
  | .cls p => if p c then .eps else .emp
  | .cat a b =>
      if a.nullable then Regex.altS (Regex.catS (Regex.deriv c a) b) (Regex.deriv c b)
      else Regex.catS (Regex.deriv c a) b
  | .alt a b => Regex.altS (Regex.deriv c a) (Regex.deriv c b)
  | .star a => Regex.catS (Regex.deriv c a) (.star a)

/-- Anchored match of a whole string, as JavaScript test does for a
regex anchored on both sides. -/
def Regex.rmatch (r : Regex) (s : String) : Bool :=
  (s.toList.foldl (fun r c => Regex.deriv c r) r).nullable

/-- JavaScript word character class, backslash-w: ASCII letters, digits and
underscore. -/
def isWordChar (c : Char) : Bool :=
  (('a' ≤ c && c ≤ 'z') || ('A' ≤ c && c ≤ 'Z') || ('0' ≤ c && c ≤ '9') || c = '_')

/-- One or more word characters. -/
def wordPlus : Regex := .cat (.cls isWordChar) (.star (.cls isWordChar))

/-- Optional dot or dash, as in the bracket class of the email regex. -/
def sepOpt : Regex := .alt .eps (.cls (fun c => c = '.' || c = '-'))

/-- The email regex of validation.js:
caret, word-plus, (sep-opt word-plus)-star, at, word-plus,
(sep-opt word-plus)-star, (dot word 2-to-3)-plus, dollar. -/
def emailRegex : Regex :=
  let seg : Regex := .cat sepOpt wordPlus
  let tld : Regex :=
    .cat (.cls (fun c => c = '.'))
      (.cat (.cls isWordChar) (.cat (.cls isWordChar) (.alt .eps (.cls isWordChar))))
  .cat wordPlus
    (.cat (.star seg)
      (.cat (.cls (fun c => c = '@'))
        (.cat wordPlus
          (.cat (.star seg)
            (.cat tld (.star tld))))))

/-- validateEmail from validation.js. -/
def validateEmail (email : String) : Bool :=
  emailRegex.rmatch email

/-- validatePhone from validation.js: exactly ten ASCII digits. -/
def validatePhone (phone : String) : Bool :=
  phone.toList.length == 10 && phone.toList.all (fun c => '0' ≤ c && c ≤ '9')

/-! ## JSON Web Tokens

The services use jsonwebtoken sign, verify and decode.  A token is either
a malformed string (which decodes to nothing) or a signed payload carrying
the claims and the secret it was signed with; verify checks the secret and
the expiry, decode ignores both. -/

structure JwtClaims where
  userId : String
  role : Option String
  exp : Option Nat
  deriving Repr, DecidableEq

inductive Token where
  | malformed (raw : String)
  | signed (claims : JwtClaims) (secret : String)
  deriving Repr, DecidableEq

inductive JwtError where
  | jsonWebTokenError
  | tokenExpiredError
  deriving Repr, DecidableEq

/-- jwt.sign with an expiresIn option: claims carry exp = now plus lifetime. -/
def jwtSign (userId : String) (role : Option String) (secret : String)
    (now lifetime : Nat) : Token :=
  .signed { userId := userId, role := role, exp := some (now + lifetime) } secret

/-- jwt.verify: signature check (the token must have been signed with the
given secret) and then the expiry check. -/
def jwtVerify (t : Token) (secret : String) (now : Nat) : Except JwtError JwtClaims :=
  match t with
  | .malformed _ => .error .jsonWebTokenError
  | .signed c s =>
      if s ≠ secret then .error .jsonWebTokenError
      else
        match c.exp with
        | none => .ok c
        | some e => if e ≤ now then .error .tokenExpiredError else .ok c

/-- jwt.decode: reads the claims without any signature or expiry check. -/
def jwtDecode : Token → Option JwtClaims
  | .malformed _ => none
  | .signed c _ => some c

/-! ## bcrypt

bcryptjs genSalt and hash are modelled as a deterministic injective digest;
compare re-hashes the candidate and compares, which is the property the
service code relies on. -/

def bcryptHash (pw : String) : String := "$2a$10$" ++ pw

def bcryptCompare (candidate stored : String) : Bool :=
  bcryptHash candidate == stored

/-! ## Data model -/

structure Address where
  street : String
  ward : String
  district : String
  city : String
  deriving Repr, DecidableEq

/-- A user document as stored in the users collection (user.model.ts). -/
structure StoredUser where
  id : String
  name : String
  email : String
  phone : String
  password : String
  role : String
  isVerified : Bool
  isBanned : Bool
  deriving Repr, DecidableEq

/-- A user document converted by toObject: the password key may be absent
when the field was not selected or was deleted. -/
structure UserObj where
  id : String
  name : String
  email : String
  phone : String
  role : String
  isVerified : Bool
  isBanned : Bool
  password : Option String
  deriving Repr, DecidableEq

/-- Document.toObject on a user; passwordSelected records whether the
password field was selected on the query (it has select false in the
schema). -/
def toObject (u : StoredUser) (passwordSelected : Bool) : UserObj :=
  { id := u.id, name := u.name, email := u.email, phone := u.phone,
    role := u.role, isVerified := u.isVerified, isBanned := u.isBanned,
    password := if passwordSelected then some u.password else none }

/-- User.findOne on the email field (password not selected). -/
def findOne (db : List StoredUser) (email : String) : Option StoredUser :=
  db.find? (fun u => u.email == email)

/-- User.findById. -/
def findById (db : List StoredUser) (id : String) : Option StoredUser :=
  db.find? (fun u => u.id == id)

/-- A record of the token-blacklist collection
(token-blacklist.model.ts): the token string plus an expiry used by the
TTL index.  expiresAt is an Option because the document constructor may be
called without it; the schema marks it required. -/
structure BlacklistDoc where
  token : Token
  expiresAt : Option Nat
  deriving Repr, DecidableEq

/-- Errors thrown by the JavaScript code: plain code-message-status
objects, bare Error values (no code), jsonwebtoken errors, and Mongoose
validation errors. -/
inductive SvcError where
  | errObj (code : Option String) (message : String) (status : Option Nat)
  | jwtErr (e : JwtError)
  | validationError (message : String)
  deriving Repr, DecidableEq

/-- Saving a new TokenBlacklist document: Mongoose rejects the save when
the required expiresAt path is missing; the unique index rejects a
duplicate token. -/
def tokenBlacklistSave (store : List BlacklistDoc) (doc : BlacklistDoc) :
    Except SvcError (List BlacklistDoc) :=
  if doc.expiresAt.isNone then
    .error (.validationError "TokenBlacklist validation failed: expiresAt: Path `expiresAt` is required.")
  else if store.any (fun r => r.token == doc.token) then
    .error (.validationError "duplicate key error")
  else
    .ok (store ++ [doc])

/-- AuthService.isTokenBlacklisted: a point lookup in the blacklist. -/
def isTokenBlacklisted (store : List BlacklistDoc) (t : Token) : Bool :=
  store.any (fun r => r.token == t)

/-! ## AuthService (src/services/auth.service.ts unless noted) -/

/-- The process environment variables the service reads.  The expiry
variables are optional: the TypeScript service falls back to one day for
the access token and seven days for the refresh token. -/
structure Env where
  jwtSecret : String
  jwtRefreshSecret : String
  jwtExpiresIn : Option Nat
  jwtRefreshExpiresIn : Option Nat
  deriving Repr, DecidableEq

/-- AuthService.generateToken: signs a userId-only payload with the access
secret, lifetime from JWT_EXPIRES_IN defaulting to one day. -/
def generateToken (env : Env) (now : Nat) (userId : String) : Token :=
  jwtSign userId none env.jwtSecret now (env.jwtExpiresIn.getD 86400)

/-- AuthService.generateRefreshToken: signs a userId-only payload with the
refresh secret, lifetime from JWT_REFRESH_EXPIRES_IN defaulting to seven
days. -/
def generateRefreshToken (env : Env) (now : Nat) (userId : String) : Token :=
  jwtSign userId none env.jwtRefreshSecret now (env.jwtRefreshExpiresIn.getD 604800)

/-- AuthService.formatUserResponse: toObject followed by deleting the
password key, unconditionally. -/
def formatUserResponse (u : StoredUser) (passwordSelected : Bool) : UserObj :=
  let userObj := toObject u passwordSelected
  { userObj with password := none }

structure AuthResponse where
  user : UserObj
  token : Token
  refreshToken : Token
  deriving Repr, DecidableEq

/-- Registration input, req.body shape: address may be absent. -/
structure RegisterInput where
  name : String
  email : String
  phone : String
  password : String
  address : Option Address
  deriving Repr, DecidableEq

/-- Presence of all structured address sub-fields, as the chained truthy
checks on address.street, address.ward, address.district, address.city. -/
def addressComplete : Option Address → Bool
  | none => false
  | some a => !(a.street == "" || a.ward == "" || a.district == "" || a.city == "")

/-- AuthService.register.  The users collection is passed in and returned;
nextId stands for the ObjectId Mongoose assigns to the new document;
emailResult is the outcome of the awaited EmailService.sendTemplatedEmail
call.  The surrounding try/catch logs and rethrows, so errors propagate
unchanged. -/
def registerService (env : Env) (db : List StoredUser) (now : Nat) (nextId : String)
    (data : RegisterInput) (emailResult : Except SvcError Unit) :
    List StoredUser × Except SvcError AuthResponse :=
  if data.name == "" || data.email == "" || data.phone == "" || data.password == "" then
    (db, .error (.errObj none "Missing required fields: name, email, phone, password" none))
  else if !(addressComplete data.address) then
    (db, .error (.errObj none "Missing required address fields: street, ward, district, city" none))
  else if !(validateEmail data.email) then
    (db, .error (.errObj none "Invalid email format" none))
  else if !(validatePhone data.phone) then
    (db, .error (.errObj none "Invalid phone format" none))
  else if (findOne db data.email).isSome then
    (db, .error (.errObj none "User already exists" none))
  else
    let newUser : StoredUser :=
      { id := nextId, name := data.name, email := data.email, phone := data.phone,
        password := bcryptHash data.password, role := "renter",
        isVerified := false, isBanned := false }
    let db2 := db ++ [newUser]
    let token := generateToken env now newUser.id
    let refreshToken := generateRefreshToken env now newUser.id
    match emailResult with
    | .error e => (db2, .error e)
    | .ok _ =>
        (db2, .ok { user := formatUserResponse newUser true,
                    token := token, refreshToken := refreshToken })

/-- The error all three failure branches of AuthService.login throw. -/
def invalidCredentialsErr : SvcError :=
  .errObj (some "INVALID_CREDENTIALS") "Invalid email or password" (some 401)

/-- AuthService.login: findOne on email with the password selected, a
truthiness check on the stored password, then the bcrypt comparison; on
success fresh access and refresh tokens. -/
def loginService (env : Env) (db : List StoredUser) (now : Nat)
    (email password : String) : Except SvcError AuthResponse :=
  match findOne db email with
  | none => .error invalidCredentialsErr
  | some user =>
      if user.password == "" then .error invalidCredentialsErr
      else if !(bcryptCompare password user.password) then .error invalidCredentialsErr
      else
        .ok { user := formatUserResponse user true,
              token := generateToken env now user.id,
              refreshToken := generateRefreshToken env now user.id }

/-- AuthService.getUserProfile: findById (password not selected, it has
select false) and format. -/
def getUserProfileService (db : List StoredUser) (userId : String) :
    Except SvcError UserObj :=
  match findById db userId with
  | none => .error (.errObj none "User not found" none)
  | some user => .ok (formatUserResponse user false)

structure TokenPair where
  token : Token
  refreshToken : Token
  deriving Repr, DecidableEq

/-- AuthService.refreshToken: verifies against the refresh secret, loads
the user, and issues a fresh access and refresh token.  It takes no
blacklist argument because the source never consults the blacklist. -/
def refreshTokenService (env : Env) (db : List StoredUser) (now : Nat)
    (refreshToken : Token) : Except SvcError TokenPair :=
  match jwtVerify refreshToken env.jwtRefreshSecret now with
  | .error e => .error (.jwtErr e)
  | .ok decoded =>
      match findById db decoded.userId with
      | none => .error (.errObj none "User not found" none)
      | some user =>
          .ok { token := generateToken env now user.id,
                refreshToken := generateRefreshToken env now user.id }

/-- AuthService.revokeToken (TypeScript): constructs a TokenBlacklist
document from the token alone and saves it.  No decode happens and no
expiresAt is supplied. -/
def revokeTokenTS (store : List BlacklistDoc) (t : Token) :
    Except SvcError (List BlacklistDoc) :=
  tokenBlacklistSave store { token := t, expiresAt := none }

/-- AuthService.logout (TypeScript): delegates to revokeToken. -/
def logoutTS (store : List BlacklistDoc) (t : Token) :
    Except SvcError (List BlacklistDoc) :=
  revokeTokenTS store t

/-- The message carried by a thrown error value. -/
def SvcError.message : SvcError → String
  | .errObj _ m _ => m
  | .jwtErr .jsonWebTokenError => "jwt malformed"
  | .jwtErr .tokenExpiredError => "jwt expired"
  | .validationError m => m

/-- AuthService.logout (JavaScript, auth.service.js): loads the user,
decodes the token without verification, rejects a missing or falsy exp
claim, stores the token with expiresAt = exp times a thousand
(seconds to milliseconds), and wraps any inner failure in a
Failed-to-logout error. -/
def logoutJS (db : List StoredUser) (store : List BlacklistDoc)
    (userId : String) (t : Token) :
    Except SvcError (List BlacklistDoc) :=
  match findById db userId with
  | none => .error (.errObj none "User not found" none)
  | some _ =>
      match jwtDecode t with
      | none => .error (.errObj none ("Failed to logout: " ++ "Invalid token") none)
      | some decoded =>
          if decoded.exp.getD 0 == 0 then
            .error (.errObj none ("Failed to logout: " ++ "Invalid token") none)
          else
            match tokenBlacklistSave store
                { token := t, expiresAt := some (decoded.exp.getD 0 * 1000) } with
            | .error e => .error (.errObj none ("Failed to logout: " ++ e.message) none)
            | .ok store2 => .ok store2

/-- AuthService.changePassword: findOne on the first argument in the email
field, hash the second argument, persist it as the user password. -/
def changePasswordService (db : List StoredUser) (email newPassword : String) :
    List StoredUser × Except SvcError Bool :=
  match findOne db email with
  | none => (db, .error (.errObj none "User not found" none))
  | some user =>
      let hashed := bcryptHash newPassword
      let db2 := db.map (fun v => if v.id == user.id then { v with password := hashed } else v)
      (db2, .ok true)

/-! ## Authentication middleware (src/middlewares/auth.middleware.ts) -/

/-- The observable steps of the middleware, in execution order: the
presence check on the extracted token, the blacklist (revocation store)
lookup, and the jwt verification. -/
inductive AuthEvent where
  | presenceCheck
  | revocationLookup
  | verifySignature
  deriving Repr, DecidableEq

/-- The outcome of the middleware: attach req.user and call next, answer
401 directly for the two jsonwebtoken error names, or forward the thrown
object to the error middleware. -/
inductive MwResult where
  | ok (userId : String) (role : Option String)
  | resp401 (message : String)
  | forwarded (code : String) (message : String)
  deriving Repr, DecidableEq

/-- The auth middleware, paired with the trace of its steps.  Source
order: extract the token and check presence, then the blacklist lookup,
then jwt.verify with the access secret. -/
def authMiddleware (store : List BlacklistDoc) (secret : String) (now : Nat)
    (tok : Option Token) : MwResult × List AuthEvent :=
  match tok with
  | none => (.forwarded "UNAUTHORIZED" "No token provided", [.presenceCheck])
  | some t =>
      if isTokenBlacklisted store t then
        (.forwarded "UNAUTHORIZED" "Token has been revoked",
         [.presenceCheck, .revocationLookup])
      else
        match jwtVerify t secret now with
        | .error .jsonWebTokenError =>
            (.resp401 "Invalid token",
             [.presenceCheck, .revocationLookup, .verifySignature])
        | .error .tokenExpiredError =>
            (.resp401 "Token expired",
             [.presenceCheck, .revocationLookup, .verifySignature])
        | .ok c =>
            (.ok c.userId c.role,
             [.presenceCheck, .revocationLookup, .verifySignature])

/-! ## Auth controller (src/controllers/auth.controller.ts) -/

def isUpperCh (c : Char) : Bool := 'A' ≤ c && c ≤ 'Z'
def isLowerCh (c : Char) : Bool := 'a' ≤ c && c ≤ 'z'
def isDigitCh (c : Char) : Bool := '0' ≤ c && c ≤ '9'

/-- The special characters of the controller regex bracket class. -/
def specialChars : List Char := ['!', '@', '#', '$', '%', '^', '&', '*']

def isSpecialCh (c : Char) : Bool := specialChars.contains c

/-- The password-strength rejection condition the controller uses for
register, changePassword and resetPassword: length below eight, or any of
the four character classes absent. -/
def passwordRejected (pw : String) : Bool :=
  decide (pw.toList.length < 8) || !(pw.toList.any isUpperCh) || !(pw.toList.any isLowerCh)
    || !(pw.toList.any isDigitCh) || !(pw.toList.any isSpecialCh)

/-- How many of the four character classes are present in a password. -/
def classCount (pw : String) : Nat :=
  (if pw.toList.any isLowerCh then 1 else 0) + (if pw.toList.any isUpperCh then 1 else 0)
    + (if pw.toList.any isDigitCh then 1 else 0) + (if pw.toList.any isSpecialCh then 1 else 0)

/-- The controller error map (handleError): code to response status and
message; INVALID_CREDENTIALS gets a fixed message; unknown or absent codes
fall to the 500 default. -/
def handleError : SvcError → Nat × String
  | .errObj (some code) msg _ =>
      if code == "INVALID_CREDENTIALS" then (401, "Invalid email or password")
      else if code == "MISSING_FIELDS" || code == "INVALID_EMAIL"
          || code == "INVALID_PASSWORD" || code == "INVALID_TOKEN"
          || code == "INVALID_REFRESH_TOKEN" || code == "INVALID_PHONE"
          || code == "EMAIL_VERIFIED" then (400, msg)
      else if code == "EMAIL_NOT_FOUND" || code == "USER_NOT_FOUND" then (404, msg)
      else if code == "TOKEN_EXPIRED" || code == "UNAUTHORIZED" then (401, msg)
      else if code == "USER_EXISTS" then (409, msg)
      else if code == "RATE_LIMIT_EXCEEDED" then (429, msg)
      else (500, "Internal server error")
  | _ => (500, "Internal server error")

/-- A controller response: formatResponse with a status and message, with
success true or false. -/
inductive CtrlResult where
  | success (status : Nat) (message : String)
  | failure (status : Nat) (message : String)
  deriving Repr, DecidableEq

/-- The register controller: field presence, email format, phone format,
the four-class password-strength check, then AuthService.register. -/
def registerController (env : Env) (db : List StoredUser) (now : Nat) (nextId : String)
    (body : RegisterInput) (emailResult : Except SvcError Unit) :
    List StoredUser × CtrlResult :=
  if body.email == "" || body.password == "" || body.phone == "" || body.name == ""
      || body.address.isNone then
    (db, .failure 400 "All fields are required")
  else if !(validateEmail body.email) then
    (db, .failure 400 "Invalid email format")
  else if !(validatePhone body.phone) then
    (db, .failure 400 "Invalid phone format")
  else if passwordRejected body.password then
    (db, .failure 400 "Password must be at least 8 characters long and contain uppercase, lowercase, number and special character")
  else
    match registerService env db now nextId body emailResult with
    | (db2, .ok _) => (db2, .success 201 "User registered successfully")
    | (db2, .error e) =>
        let r := handleError e
        (db2, .failure r.1 r.2)

/-- The changePassword controller: authentication check, field presence,
the four-class strength check on the new password, token presence, then
AuthService.changePassword called with the caller id as first argument and
the old password as second argument. -/
def changePasswordController (db : List StoredUser) (reqUserId : Option String)
    (tokenPresent : Bool) (oldPassword newPassword : Option String) :
    List StoredUser × CtrlResult :=
  match reqUserId with
  | none => (db, .failure 401 "User not authenticated")
  | some uid =>
      if oldPassword.getD "" == "" || newPassword.getD "" == "" then
        (db, .failure 400 "Old password and new password are required")
      else if passwordRejected (newPassword.getD "") then
        (db, .failure 400 "New password must be at least 8 characters long and contain uppercase, lowercase, number and special character")
      else if !tokenPresent then
        (db, .failure 400 "No token provided")
      else
        match changePasswordService db uid (oldPassword.getD "") with
        | (db2, .ok _) => (db2, .success 200 "Password changed successfully")
        | (db2, .error e) =>
            let r := handleError e
            (db2, .failure r.1 r.2)

/-! ## Concrete fixtures used by witnesses and counterexamples -/

/-- An environment with distinct access and refresh secrets and no expiry
overrides, so the source defaults (one day, seven days) apply. -/
def envA : Env :=
  { jwtSecret := "asec", jwtRefreshSecret := "rsec",
    jwtExpiresIn := none, jwtRefreshExpiresIn := none }

def addrA : Address :=
  { street := "12 Ly Thuong Kiet", ward := "Ward 5",
    district := "District 1", city := "HCMC" }

def annUser : StoredUser :=
  { id := "u1", name := "Ann", email := "a@b.vn", phone := "0123456789",
    password := bcryptHash "Secret1!", role := "renter",
    isVerified := true, isBanned := false }

def bannedAnn : StoredUser := { annUser with isBanned := true }

def regInA : RegisterInput :=
  { name := "Ann", email := "a@b.vn", phone := "0123456789",
    password := "Abcd123!", address := some addrA }

/-- The user document register creates from regInA. -/
def regUserA : StoredUser :=
  { id := "u9", name := "Ann", email := "a@b.vn", phone := "0123456789",
    password := bcryptHash "Abcd123!", role := "renter",
    isVerified := false, isBanned := false }

/-- A refresh token signed with the refresh secret of envA, unexpired at
time zero. -/
def rtokA : Token :=
  Token.signed { userId := "u1", role := none, exp := some 1000 } "rsec"

/-- An access token signed with the access secret of envA, unexpired at
time zero. -/
def atokA : Token :=
  Token.signed { userId := "u1", role := none, exp := some 1000 } "asec"

/-! ## Claims -/

/-- The redaction at the choke point, as a rewrite rule. -/
@[simp] lemma formatUserResponse_password (u : StoredUser) (sel : Bool) :
    (formatUserResponse u sel).password = none := rfl

/-- C4: every account returned across the trust boundary (registration,
login, profile access) has no password field; the redaction happens
unconditionally at the single choke point formatUserResponse, through
which all three operations return their account. -/
theorem c4_secret_never_returned :
    (∀ (u : StoredUser) (sel : Bool), (formatUserResponse u sel).password = none)
    ∧ (∀ env db now nextId data emailResult db2 resp,
        registerService env db now nextId data emailResult = (db2, Except.ok resp) →
        resp.user.password = none)
    ∧ (∀ env db now email pw resp,
        loginService env db now email pw = Except.ok resp →
        resp.user.password = none)
    ∧ (∀ db uid obj,
        getUserProfileService db uid = Except.ok obj →
        obj.password = none) := by
  refine ⟨fun u sel => rfl, ?_, ?_, ?_⟩
  · intro env db now nextId data emailResult db2 resp h
    unfold registerService at h
    repeat' split at h
    all_goals simp_all [Prod.mk.injEq]
    rw [← h.2]
    simp
  · intro env db now email pw resp h
    unfold loginService at h
    repeat' split at h
    all_goals simp_all
    rw [← h]
    simp
  · intro db uid obj h
    unfold getUserProfileService at h
    repeat' split at h
    all_goals simp_all
    rw [← h]
    simp

/-- Witness for C4: a concrete successful registration, login and profile
read, each returning an account with no password field. -/
theorem c4_secret_never_returned_witness :
    (∃ db2 resp, registerService envA [] 0 "u9" regInA (Except.ok ()) = (db2, Except.ok resp)
      ∧ resp.user.password = none)
    ∧ (∃ resp, loginService envA [annUser] 0 "a@b.vn" "Secret1!" = Except.ok resp
      ∧ resp.user.password = none)
    ∧ (∃ obj, getUserProfileService [annUser] "u1" = Except.ok obj
      ∧ obj.password = none) := by
  refine ⟨⟨[regUserA],
      { user := formatUserResponse regUserA true,
        token := generateToken envA 0 "u9",
        refreshToken := generateRefreshToken envA 0 "u9" }, by decide, ?_⟩,
    ⟨{ user := formatUserResponse annUser true,
        token := generateToken envA 0 "u1",
        refreshToken := generateRefreshToken envA 0 "u1" }, by decide, ?_⟩,
    ⟨formatUserResponse annUser false, by decide, ?_⟩⟩
  · exact c4_secret_never_returned.2.1 envA [] 0 "u9" regInA (Except.ok ()) [regUserA] _ (by decide)
  · exact c4_secret_never_returned.2.2.1 envA [annUser] 0 "a@b.vn" "Secret1!" _ (by decide)
  · exact c4_secret_never_returned.2.2.2 [annUser] "u1" _ (by decide)

/-- C5: a login with a nonexistent identity and a login with an existing
identity but mismatching secret fail with the identical error object:
code INVALID_CREDENTIALS, message Invalid email or password, status 401;
the two failure causes are indistinguishable to the caller. -/
theorem c5_login_failures_indistinguishable :
    ∀ env db now email1 pw1 email2 pw2 u,
      findOne db email1 = none →
      findOne db email2 = some u →
      bcryptCompare pw2 u.password = false →
      loginService env db now email1 pw1 = Except.error invalidCredentialsErr
      ∧ loginService env db now email2 pw2 = Except.error invalidCredentialsErr
      ∧ loginService env db now email1 pw1 = loginService env db now email2 pw2 := by
  intro env db now e1 p1 e2 p2 u h1 h2 h3
  have l1 : loginService env db now e1 p1 = Except.error invalidCredentialsErr := by
    unfold loginService
    rw [h1]
  have l2 : loginService env db now e2 p2 = Except.error invalidCredentialsErr := by
    unfold loginService
    rw [h2]
    by_cases hp : u.password = ""
    · simp [hp]
    · simp [hp, h3]
  exact ⟨l1, l2, l1.trans l2.symm⟩

/-- Witness for C5: a concrete store with one user; the unknown-identity
login and the wrong-secret login return the same error value. -/
theorem c5_login_failures_indistinguishable_witness :
    findOne [annUser] "ghost@b.vn" = none
    ∧ findOne [annUser] "a@b.vn" = some annUser
    ∧ bcryptCompare "wrong" annUser.password = false
    ∧ loginService envA [annUser] 0 "ghost@b.vn" "x"
        = loginService envA [annUser] 0 "a@b.vn" "wrong" :=
  ⟨by decide, by decide, by decide,
    (c5_login_failures_indistinguishable envA [annUser] 0 "ghost@b.vn" "x" "a@b.vn" "wrong"
      annUser (by decide) (by decide) (by decide)).2.2⟩

/-- C6 counterexample: a banned account with matching credentials logs in
successfully and receives a token pair; no AccountBanned failure exists in
the login path. -/
theorem c6_counterexample :
    bannedAnn.isBanned = true
    ∧ findOne [bannedAnn] "a@b.vn" = some bannedAnn
    ∧ bcryptCompare "Secret1!" bannedAnn.password = true
    ∧ loginService envA [bannedAnn] 0 "a@b.vn" "Secret1!"
        = Except.ok { user := formatUserResponse bannedAnn true,
                      token := generateToken envA 0 "u1",
                      refreshToken := generateRefreshToken envA 0 "u1" } :=
  ⟨rfl, by decide, by decide, by decide⟩

/-- C6 amended: login never inspects the ban flag; whenever the identity
exists and the secret matches, the call succeeds and issues a token pair
even when the account has the ban flag set. -/
theorem c6_login_ignores_ban_flag :
    ∀ env db now email pw u,
      findOne db email = some u →
      u.isBanned = true →
      u.password ≠ "" →
      bcryptCompare pw u.password = true →
      loginService env db now email pw
        = Except.ok { user := formatUserResponse u true,
                      token := generateToken env now u.id,
                      refreshToken := generateRefreshToken env now u.id } := by
  intro env db now email pw u hf hb hp hc
  unfold loginService
  rw [hf]
  simp [hp, hc]

/-- Witness for C6 amended: the concrete banned account of the
counterexample run through the theorem. -/
theorem c6_login_ignores_ban_flag_witness :
    loginService envA [bannedAnn] 0 "a@b.vn" "Secret1!"
      = Except.ok { user := formatUserResponse bannedAnn true,
                    token := generateToken envA 0 bannedAnn.id,
                    refreshToken := generateRefreshToken envA 0 bannedAnn.id } :=
  c6_login_ignores_ban_flag envA [bannedAnn] 0 "a@b.vn" "Secret1!" bannedAnn
    (by decide) (by decide) (by decide) (by decide)

/-- C7 counterexample: a length-8 password containing exactly three of
the four character classes (uppercase, lowercase, digit, but no special
character) is rejected by the password-strength validation, and the
register endpoint fails with the INVALID_PASSWORD response on it. -/
theorem c7_counterexample :
    8 ≤ "Abcdefg1".toList.length
    ∧ classCount "Abcdefg1" = 3
    ∧ passwordRejected "Abcdefg1" = true
    ∧ (registerController envA [] 0 "u9" { regInA with password := "Abcdefg1" }
        (Except.ok ())).2
      = CtrlResult.failure 400 "Password must be at least 8 characters long and contain uppercase, lowercase, number and special character" :=
  ⟨by decide, by decide, by decide, by decide⟩

/-- C7 amended: the password-strength validation accepts a password
exactly when its length is at least 8 and all four character classes are
present; a password with at most three of the classes is rejected, so in
particular one with only two classes is rejected. -/
theorem c7_password_rule :
    (∀ pw, passwordRejected pw = false
      ↔ (8 ≤ pw.toList.length ∧ classCount pw = 4))
    ∧ (∀ pw, classCount pw ≤ 3 → passwordRejected pw = true) := by
  have key : ∀ pw, passwordRejected pw = false
      ↔ (8 ≤ pw.toList.length ∧ classCount pw = 4) := by
    intro pw
    unfold passwordRejected classCount
    cases h1 : pw.toList.any isLowerCh <;> cases h2 : pw.toList.any isUpperCh <;>
      cases h3 : pw.toList.any isDigitCh <;> cases h4 : pw.toList.any isSpecialCh <;>
        simp [h1, h2, h3, h4]
  refine ⟨key, fun pw h => ?_⟩
  by_contra hr
  have h4 := ((key pw).mp (by revert hr; cases passwordRejected pw <;> simp)).2
  omega

/-- Witness for C7 amended: a concrete all-lowercase-and-digit password
has only two classes and is rejected. -/
theorem c7_password_rule_witness :
    classCount "abcdefg1" ≤ 3 ∧ passwordRejected "abcdefg1" = true :=
  ⟨by decide, c7_password_rule.2 "abcdefg1" (by decide)⟩

/-- C2 counterexample: for a present but malformed token (one that does
not even decode), the middleware still performs the revocation-store
lookup, and it performs it before signature verification. -/
theorem c2_counterexample :
    jwtDecode (Token.malformed "not-a-jwt") = none
    ∧ (authMiddleware [] "asec" 0 (some (Token.malformed "not-a-jwt"))).2
        = [AuthEvent.presenceCheck, AuthEvent.revocationLookup, AuthEvent.verifySignature]
    ∧ AuthEvent.revocationLookup
        ∈ (authMiddleware [] "asec" 0 (some (Token.malformed "not-a-jwt"))).2 :=
  ⟨rfl, by decide, by decide⟩

/-- C2 amended: authenticate checks token presence first and performs no
revocation-store read for a missing token; for every present token,
malformed ones included, the revocation-store lookup happens next, and
signature-and-expiry verification runs only afterwards and only when the
token is not revoked. -/
theorem c2_check_order :
    (∀ store secret now, (authMiddleware store secret now none).2 = [AuthEvent.presenceCheck])
    ∧ (∀ store secret now t,
        ((authMiddleware store secret now (some t)).2.take 2
          = [AuthEvent.presenceCheck, AuthEvent.revocationLookup])
        ∧ (AuthEvent.verifySignature ∈ (authMiddleware store secret now (some t)).2
          ↔ isTokenBlacklisted store t = false)) := by
  refine ⟨fun store secret now => rfl, fun store secret now t => ?_⟩
  unfold authMiddleware
  cases hb : isTokenBlacklisted store t
  · cases hv : jwtVerify t secret now with
    | error e => cases e <;> simp [hb, hv]
    | ok c => simp [hb, hv]
  · simp [hb]

/-- Witness for C2 amended: the order facts at a concrete store and
token. -/
theorem c2_check_order_witness :
    (authMiddleware [] "asec" 0 none).2 = [AuthEvent.presenceCheck]
    ∧ (authMiddleware [] "asec" 0 (some atokA)).2.take 2
        = [AuthEvent.presenceCheck, AuthEvent.revocationLookup] :=
  ⟨c2_check_order.1 [] "asec" 0, (c2_check_order.2 [] "asec" 0 atokA).1⟩

/-- C1 counterexample: a refresh token that is present in the revocation
store and whose signature and expiry are individually valid is still
accepted by refreshToken, which issues a fresh token pair. -/
theorem c1_counterexample :
    isTokenBlacklisted [{ token := rtokA, expiresAt := some 1000000 }] rtokA = true
    ∧ jwtVerify rtokA envA.jwtRefreshSecret 0
        = Except.ok { userId := "u1", role := none, exp := some 1000 }
    ∧ refreshTokenService envA [annUser] 0 rtokA
        = Except.ok { token := generateToken envA 0 "u1",
                      refreshToken := generateRefreshToken envA 0 "u1" } :=
  ⟨by decide, by decide, by decide⟩

/-- C1 amended: the authenticate middleware accepts a presented token iff
its signature verifies, it is not expired and it is not in the revocation
store; refreshToken, however, never consults the revocation store: it
accepts exactly the tokens whose signature verifies against the refresh
secret, are unexpired, and whose user exists, revoked or not. -/
theorem c1_token_validity :
    (∀ store secret now t,
        (∃ uid role, (authMiddleware store secret now (some t)).1 = MwResult.ok uid role)
        ↔ (isTokenBlacklisted store t = false
            ∧ ∃ c, jwtVerify t secret now = Except.ok c))
    ∧ (∀ env db now rt,
        (∃ p, refreshTokenService env db now rt = Except.ok p)
        ↔ (∃ c, jwtVerify rt env.jwtRefreshSecret now = Except.ok c
            ∧ (findById db c.userId).isSome = true)) := by
  constructor
  · intro store secret now t
    unfold authMiddleware
    cases hb : isTokenBlacklisted store t
    · cases hv : jwtVerify t secret now with
      | error e => cases e <;> simp [hb, hv]
      | ok c => simp [hb, hv]
    · simp [hb]
  · intro env db now rt
    unfold refreshTokenService
    cases hv : jwtVerify rt env.jwtRefreshSecret now with
    | error e => simp [hv]
    | ok c => cases hf : findById db c.userId <;> simp [hv, hf]

/-- Witness for C1 amended: the revoked-but-valid refresh token of the
counterexample is accepted by refreshToken. -/
theorem c1_token_validity_witness :
    ∃ p, refreshTokenService envA [annUser] 0 rtokA = Except.ok p :=
  (c1_token_validity.2 envA [annUser] 0 rtokA).mpr
    ⟨{ userId := "u1", role := none, exp := some 1000 }, by decide, by decide⟩

/-- C8 counterexample: with the default environment, an issued access
token carries no role claim and expires one day after issuance, not
fifteen minutes. -/
theorem c8_counterexample :
    generateToken envA 0 "u1"
      = Token.signed { userId := "u1", role := none, exp := some 86400 } "asec"
    ∧ (jwtDecode (generateToken envA 0 "u1")).map JwtClaims.role = some none
    ∧ ¬ ((jwtDecode (generateToken envA 0 "u1")).map JwtClaims.exp
          = some (some (0 + 900))) :=
  ⟨by decide, by decide, by decide⟩

/-- C8 amended: generateToken encodes the claims userId and exp only (no
role claim), with exp equal to issuance time plus JWT_EXPIRES_IN
defaulting to one day, signed with the access secret: it verifies against
the access secret before that expiry, is rejected after it, and is
rejected by any different secret such as the refresh secret. -/
theorem c8_access_token_claims :
    ∀ env now uid t,
      (generateToken env now uid
        = Token.signed { userId := uid, role := none,
                         exp := some (now + env.jwtExpiresIn.getD 86400) } env.jwtSecret)
      ∧ (t < now + env.jwtExpiresIn.getD 86400 →
          jwtVerify (generateToken env now uid) env.jwtSecret t
            = Except.ok { userId := uid, role := none,
                          exp := some (now + env.jwtExpiresIn.getD 86400) })
      ∧ (now + env.jwtExpiresIn.getD 86400 ≤ t →
          jwtVerify (generateToken env now uid) env.jwtSecret t
            = Except.error JwtError.tokenExpiredError)
      ∧ (env.jwtRefreshSecret ≠ env.jwtSecret →
          jwtVerify (generateToken env now uid) env.jwtRefreshSecret t
            = Except.error JwtError.jsonWebTokenError) := by
  intro env now uid t
  refine ⟨rfl, ?_, ?_, ?_⟩
  · intro ht
    unfold generateToken jwtSign jwtVerify
    simp [Nat.not_le.mpr ht]
  · intro ht
    unfold generateToken jwtSign jwtVerify
    simp [ht]
  · intro hs
    unfold generateToken jwtSign jwtVerify
    have hne : env.jwtSecret ≠ env.jwtRefreshSecret := fun h => hs h.symm
    simp [hne]

/-- Witness for C8 amended: the concrete default-environment token
verifies against the access secret with a one-day expiry and no role, and
fails against the refresh secret. -/
theorem c8_access_token_claims_witness :
    jwtVerify (generateToken envA 0 "u1") envA.jwtSecret 100
      = Except.ok { userId := "u1", role := none, exp := some 86400 }
    ∧ jwtVerify (generateToken envA 0 "u1") envA.jwtRefreshSecret 100
      = Except.error JwtError.jsonWebTokenError :=
  ⟨(c8_access_token_claims envA 0 "u1" 100).2.1 (by decide),
   (c8_access_token_claims envA 0 "u1" 100).2.2.2 (by decide)⟩

/-- C9 counterexample: a registration in which all validations pass and
the account is created, but the verification-email dispatch fails, does
not return the account and token pair: the email error propagates out of
register, even though the new user document was already saved. -/
theorem c9_counterexample :
    registerService envA [] 0 "u9" regInA
        (Except.error (SvcError.errObj none "smtp down" none))
      = ([regUserA], Except.error (SvcError.errObj none "smtp down" none)) := by
  decide

/-- C9 amended: register awaits the email dispatch and its surrounding
catch rethrows, so for any registration that would succeed, a failing
email dispatch turns the result into that same email error while the
account creation has already been persisted. -/
theorem c9_email_failure_propagates :
    ∀ env db now nextId data e db2 resp,
      registerService env db now nextId data (Except.ok ()) = (db2, Except.ok resp) →
      registerService env db now nextId data (Except.error e) = (db2, Except.error e) := by
  intro env db now nextId data e db2 resp h
  unfold registerService at h ⊢
  repeat' split at h
  all_goals simp_all [Prod.mk.injEq]

/-- Witness for C9 amended: the concrete valid registration, with a
failing dispatch. -/
theorem c9_email_failure_propagates_witness :
    registerService envA [] 0 "u9" regInA
        (Except.error (SvcError.errObj none "connection refused" none))
      = ([regUserA], Except.error (SvcError.errObj none "connection refused" none)) :=
  c9_email_failure_propagates envA [] 0 "u9" regInA
    (SvcError.errObj none "connection refused" none) [regUserA]
    { user := formatUserResponse regUserA true,
      token := generateToken envA 0 "u9",
      refreshToken := generateRefreshToken envA 0 "u9" } (by decide)

/-- C3: the TypeScript revokeToken never decodes the token and supplies
no expiresAt, so the required-expiresAt schema validation rejects the
save for every token, decodable or not, contrary to the claimed
decode-and-insert behaviour; the JavaScript logout implements the claimed
behaviour (decode without verification, insert token with
expiresAt = exp in milliseconds). -/
theorem c3_revoke_neither_decodes_nor_inserts :
    jwtDecode atokA = some { userId := "u1", role := none, exp := some 1000 }
    ∧ revokeTokenTS [] atokA
        = Except.error (SvcError.validationError "TokenBlacklist validation failed: expiresAt: Path `expiresAt` is required.")
    ∧ (∀ store t, revokeTokenTS store t
        = Except.error (SvcError.validationError "TokenBlacklist validation failed: expiresAt: Path `expiresAt` is required."))
    ∧ logoutJS [annUser] [] "u1" atokA
        = Except.ok [{ token := atokA, expiresAt := some 1000000 }] :=
  ⟨by decide, by decide, fun store t => rfl, by decide⟩

/-- C10: the changePassword controller, when all its own validations
pass, invokes AuthService.changePassword with the caller id in the
position the service looks up in the email field and the old password in
the position the service hashes and stores; consequently a successful
call persists the hash of the old password and the requested new
password is never persisted. -/
theorem c10_change_password_misroute :
    (∀ db uid old new,
        old ≠ "" → new ≠ "" → passwordRejected new = false →
        changePasswordController db (some uid) true (some old) (some new)
          = (match changePasswordService db uid old with
             | (db2, Except.ok _) => (db2, CtrlResult.success 200 "Password changed successfully")
             | (db2, Except.error err) =>
                 (db2, CtrlResult.failure (handleError err).1 (handleError err).2)))
    ∧ (∀ db uid pw db2 b u,
        findOne db uid = some u →
        changePasswordService db uid pw = (db2, Except.ok b) →
        db2 = db.map (fun v =>
          if v.id == u.id then { v with password := bcryptHash pw } else v)) := by
  constructor
  · intro db uid old new hold hnew hstrength
    unfold changePasswordController
    have h1 : (old == "" || new == "") = false := by simp [hold, hnew]
    simp [h1, hstrength]
  · intro db uid pw db2 b u hf h
    unfold changePasswordService at h
    rw [hf] at h
    simp only [Prod.mk.injEq] at h
    exact h.1.symm

/-- A user whose stored email equals the id the controller passes, so the
misrouted lookup succeeds. -/
def cpUser : StoredUser :=
  { id := "u7", name := "Bob", email := "u7", phone := "0123456789",
    password := bcryptHash "Current1!", role := "renter",
    isVerified := true, isBanned := false }

/-- Witness for C10: concretely, the endpoint succeeds and the persisted
secret is the hash of the old password, not of the requested new one. -/
theorem c10_change_password_misroute_witness :
    changePasswordController [cpUser] (some "u7") true (some "Oldpass9!") (some "Newpass1!")
      = (match changePasswordService [cpUser] "u7" "Oldpass9!" with
         | (db2, Except.ok _) => (db2, CtrlResult.success 200 "Password changed successfully")
         | (db2, Except.error err) =>
             (db2, CtrlResult.failure (handleError err).1 (handleError err).2))
    ∧ [{ cpUser with password := bcryptHash "Oldpass9!" }]
        = [cpUser].map (fun v =>
            if v.id == cpUser.id then { v with password := bcryptHash "Oldpass9!" } else v) :=
  ⟨c10_change_password_misroute.1 [cpUser] "u7" "Oldpass9!" "Newpass1!"
      (by decide) (by decide) (by decide),
   c10_change_password_misroute.2 [cpUser] "u7" "Oldpass9!"
      [{ cpUser with password := bcryptHash "Oldpass9!" }] true cpUser
      (by decide) (by decide)⟩

end StayHub
